import Mathlib

/-!
Shallow embedding of the BrewCap SMC charging-control core (src/BrewCap/smc.c)
and of the standalone diagnostic tool (src/BrewCap/Resources/smc_tool.c).

Machine integers are modelled as `Nat` with explicit `% 2^32` (resp. `% 256`)
where the C code works on `uint32_t` (resp. `uint8_t`).  The kernel transport
primitive `IOConnectCallStructMethod` is modelled as an oracle function from
the request structure to a status code and a response structure; every
operation additionally returns the ordered list of calls it issued to its
collaborators, so that call-counting properties can be stated.
-/

namespace BrewCap

/-- 2^32, the modulus of `uint32_t` arithmetic. -/
def UINT32_MOD : Nat := 4294967296

/-- Command byte for the data-phase read (smc.c / smc_tool.c). -/
def SMC_CMD_READ_BYTES : Nat := 5

/-- Command byte for the data-phase write (smc.c / smc_tool.c). -/
def SMC_CMD_WRITE_BYTES : Nat := 6

/-- Command byte for the key-info query (smc.c / smc_tool.c). -/
def SMC_CMD_READ_KEYINFO : Nat := 9

/-- `kIOReturnError`, the status returned by `SMCWriteKey` on a size
mismatch (smc_tool.c line 171). -/
def kIOReturnError : Nat := 3758097084

/-! ### Binary codec -/

/-- One iteration of the `four_char_code` accumulator (smc.c line 95):
`result = (result << 8) | (uint8_t)key[i]` on a `uint32_t` accumulator. -/
def fccStep (acc c : Nat) : Nat := ((acc <<< 8) % UINT32_MOD) ||| (c % 256)

/-- The loop of `four_char_code` (smc.c line 94):
`for (int i = 0; i < 4 && key[i]; i++)` — at most four characters, stopping
at the NUL terminator.  The fuel argument counts the remaining iterations of
`i < 4`; an exhausted list stands for the terminator of the C string. -/
def fccLoop : List Nat → Nat → Nat → Nat
  | _, 0, acc => acc
  | [], _, acc => acc
  | c :: rest, n + 1, acc => if c = 0 then acc else fccLoop rest n (fccStep acc c)

/-- `four_char_code` (smc.c lines 92–98), on a key string modelled as the
list of its character bytes. -/
def four_char_code (key : List Nat) : Nat := fccLoop key 4 0

/-- Byte `i` of the C character buffer backing a key string.  Keys in
smc_tool.c live in zero-initialised `char[5]` buffers (`UInt32Char_t`), so
indices past the end of the string read 0. -/
def bufByte (str : List Nat) (i : Nat) : Nat := str.getD i 0

/-- `_strtoul` (smc_tool.c lines 65–75), base-16 branch, on the buffer
backing `str`: `total += (unsigned char)(str[i]) << (size - 1 - i) * 8` for
`i = 0 .. size-1`, with `total` a `UInt32`. -/
def strtoul16 (str : List Nat) (size : Nat) : Nat :=
  (List.range size).foldl
    (fun total i => (total + ((bufByte str i % 256) <<< ((size - 1 - i) * 8))) % UINT32_MOD) 0

/-- `_ultostr` (smc_tool.c lines 77–83): the four bytes of a `UInt32`,
most significant first (the written NUL terminator is not part of the
string content). -/
def ultostr (val : Nat) : List Nat :=
  [(val >>> 24) % 256, (val >>> 16) % 256, (val >>> 8) % 256, val % 256]

/-! ### The SMC parameter structure (smc.c lines 55–88) -/

/-- `SMCKeyVersion` (smc.c lines 55–61). -/
structure SMCKeyVersion where
  major : Nat
  minor : Nat
  build : Nat
  reserved : Nat
  release : Nat
deriving DecidableEq, Repr

/-- `SMCPLimitData` (smc.c lines 63–69). -/
structure SMCPLimitData where
  version : Nat
  length : Nat
  cpuPLimit : Nat
  gpuPLimit : Nat
  memPLimit : Nat
deriving DecidableEq, Repr

/-- `SMCKeyInfoData` (smc.c lines 71–75). -/
structure SMCKeyInfoData where
  dataSize : Nat
  dataType : Nat
  dataAttributes : Nat
deriving DecidableEq, Repr

/-- `SMCParamStruct` (smc.c lines 77–88): the fixed-layout request/response
structure exchanged with the controller. -/
structure SMCParamStruct where
  key : Nat
  vers : SMCKeyVersion
  pLimitData : SMCPLimitData
  keyInfo : SMCKeyInfoData
  padding : Nat
  result : Nat
  status : Nat
  data8 : Nat
  data32 : Nat
  bytes : List Nat
deriving DecidableEq, Repr

/-- The all-zero `SMCKeyVersion` produced by `memset`. -/
def zeroVers : SMCKeyVersion := { major := 0, minor := 0, build := 0, reserved := 0, release := 0 }

/-- The all-zero `SMCPLimitData` produced by `memset`. -/
def zeroPLimit : SMCPLimitData :=
  { version := 0, length := 0, cpuPLimit := 0, gpuPLimit := 0, memPLimit := 0 }

/-- The all-zero `SMCKeyInfoData` produced by `memset`. -/
def zeroKeyInfo : SMCKeyInfoData := { dataSize := 0, dataType := 0, dataAttributes := 0 }

/-- The all-zero `SMCParamStruct` produced by `memset` (smc.c lines 110–111,
159–160, 185–186). -/
def zeroParam : SMCParamStruct :=
  { key := 0
    vers := zeroVers
    pLimitData := zeroPLimit
    keyInfo := zeroKeyInfo
    padding := 0
    result := 0
    status := 0
    data8 := 0
    data32 := 0
    bytes := List.replicate 32 0 }

/-! ### Transport and registry oracles -/

/-- The kernel call primitive `IOConnectCallStructMethod`, as used through
`smc_call` (smc.c lines 100–106): an oracle mapping the request structure to
a `kern_return_t` status and a response structure.  `KERN_SUCCESS` is 0. -/
def Transport : Type := SMCParamStruct → Nat × SMCParamStruct

/-- A typed registry property value handed to `IORegistryEntrySetCFProperty`
(a `CFBoolean` or a `CFNumber` of kind `kCFNumberSInt32Type`). -/
inductive CFValue where
  | boolean : Bool → CFValue
  | sint32 : Int → CFValue
deriving DecidableEq, Repr

/-- One call issued by the core to a collaborator: either a registry
property write on the battery service, or one SMC transport exchange. -/
inductive Event where
  | reg : String → CFValue → Event
  | smc : SMCParamStruct → Event
deriving DecidableEq, Repr

/-- The registry collaborators of smc.c: the battery service handle returned
by `IOServiceGetMatchingService` (0 meaning not found, `IO_OBJECT_NULL`) and
the status `IORegistryEntrySetCFProperty` returns for a given write. -/
structure RegistryEnv where
  batteryService : Nat
  setProperty : String → CFValue → Nat

/-- Number of data-phase write commands among the issued calls. -/
def countWriteCmds (evs : List Event) : Nat :=
  (evs.filter fun e =>
    match e with
    | Event.smc ins => ins.data8 == SMC_CMD_WRITE_BYTES
    | Event.reg _ _ => false).length

/-- The SMC transport calls among the issued calls. -/
def smcCalls (evs : List Event) : List Event :=
  evs.filter fun e =>
    match e with
    | Event.smc _ => true
    | Event.reg _ _ => false

/-! ### Registry property path (smc.c lines 19–43) -/

/-- `get_battery_service` (smc.c lines 19–22). -/
def get_battery_service (env : RegistryEnv) : Nat := env.batteryService

/-- `set_battery_property` (smc.c lines 24–43): locate the battery service
(fail with -1 and no registry call when absent), then issue the registry
property write, returning 0 exactly when it reports `KERN_SUCCESS`. -/
def set_battery_property (env : RegistryEnv) (key : String) (value : CFValue) :
    Int × List Event :=
  let service := get_battery_service env
  if service = 0 then (-1, [])
  else
    let result := env.setProperty key value
    if result ≠ 0 then (-1, [Event.reg key value])
    else (0, [Event.reg key value])

/-! ### Key access protocol (smc.c lines 108–200) -/

/-- The key-info request built by `smc_read_key_info` (smc.c lines 110–113):
zeroed structure with the key id and the key-info command byte. -/
def infoRequest (key : Nat) : SMCParamStruct :=
  { zeroParam with key := key, data8 := SMC_CMD_READ_KEYINFO }

/-- The data-phase read request built by `smc_read_key` (smc.c lines
159–163): zeroed structure with the key id, the key info obtained in the
info phase, and the read command byte. -/
def readRequest (key : Nat) (info : SMCKeyInfoData) : SMCParamStruct :=
  { zeroParam with key := key, keyInfo := info, data8 := SMC_CMD_READ_BYTES }

/-- The size clamp `if (size > 32) size = 32` (smc.c lines 170–171 and
189–190). -/
def clampTo32 (size : Nat) : Nat := if size > 32 then 32 else size

/-- The 32-byte payload of a write request: the caller's first
`clampTo32 size` bytes (each a `uint8_t`) copied over the zeroed buffer
(smc.c line 191). -/
def writePayload (bytes : List Nat) (size : Nat) : List Nat :=
  ((bytes.take (clampTo32 size)).map (fun b => b % 256)) ++
    List.replicate (32 - clampTo32 size) 0

/-- The data-phase write request built by `smc_write_key` (smc.c lines
185–191). -/
def writeRequest (key : Nat) (info : SMCKeyInfoData) (bytes : List Nat) (size : Nat) :
    SMCParamStruct :=
  { zeroParam with
    key := key
    keyInfo := info
    data8 := SMC_CMD_WRITE_BYTES
    bytes := writePayload bytes size }

/-- `smc_read_key_info` (smc.c lines 108–122): issue the key-info request;
on a non-success status return failure, otherwise the response's key-info
sub-structure. -/
def smc_read_key_info (tr : Transport) (key : Nat) :
    Option SMCKeyInfoData × List Event :=
  let out := tr (infoRequest key)
  if out.1 ≠ 0 then (none, [Event.smc (infoRequest key)])
  else (some out.2.keyInfo, [Event.smc (infoRequest key)])

/-- `smc_read_key` (smc.c lines 152–175): info phase, then data-phase read;
on success the output buffer receives `min(info.dataSize, 32)` bytes of the
response payload and that clamped count is reported as the size. -/
def smc_read_key (tr : Transport) (key : List Nat) :
    Option (List Nat × Nat) × List Event :=
  let k := four_char_code key
  let ri := smc_read_key_info tr k
  match ri.1 with
  | none => (none, ri.2)
  | some info =>
    let ins := readRequest k info
    let out := tr ins
    if out.1 ≠ 0 then (none, ri.2 ++ [Event.smc ins])
    else
      let size := clampTo32 info.dataSize
      (some (out.2.bytes.take size, size), ri.2 ++ [Event.smc ins])

/-- `smc_write_key` (smc.c lines 177–200): info phase, then data-phase
write carrying the declared key info and the caller's bytes clamped to 32;
returns 0 exactly when the transport reports success. -/
def smc_write_key (tr : Transport) (key : List Nat) (bytes : List Nat) (size : Nat) :
    Int × List Event :=
  let k := four_char_code key
  let ri := smc_read_key_info tr k
  match ri.1 with
  | none => (-1, ri.2)
  | some info =>
    let ins := writeRequest k info bytes size
    let out := tr ins
    if out.1 ≠ 0 then (-1, ri.2 ++ [Event.smc ins])
    else (0, ri.2 ++ [Event.smc ins])

/-- `smc_close` (smc.c lines 145–150), on the process-wide handle
`g_smc_conn` passed as explicit state: release the connection only when the
handle is non-zero, then zero it.  The second component lists the handles
passed to `IOServiceClose`. -/
def smc_close (conn : Nat) : Nat × List Nat :=
  if conn ≠ 0 then (0, [conn]) else (conn, [])

/-! ### Charging control policy (smc.c lines 206–288) -/

/-- The key string "CH0B" as character bytes. -/
def ch0bStr : List Nat := [67, 72, 48, 66]

/-- The key string "CH0I" as character bytes. -/
def ch0iStr : List Nat := [67, 72, 48, 73]

/-- The key string "BCLM" as character bytes. -/
def bclmStr : List Nat := [66, 67, 76, 77]

/-- `smc_disable_charging` (smc.c lines 206–238): four attempts issued
unconditionally in order — registry `ChargeInhibit := true`, registry
`ChargeRate := 0`, SMC write `CH0B := 0x02`, SMC write `CH0I := 0x01` —
with a success flag set by any attempt that returns 0. -/
def smc_disable_charging (env : RegistryEnv) (tr : Transport) : Int × List Event :=
  let a1 := set_battery_property env "ChargeInhibit" (CFValue.boolean true)
  let success : Nat := if a1.1 = 0 then 1 else 0
  let a2 := set_battery_property env "ChargeRate" (CFValue.sint32 0)
  let success := if a2.1 = 0 then 1 else success
  let a3 := smc_write_key tr ch0bStr [2] 1
  let success := if a3.1 = 0 then 1 else success
  let a4 := smc_write_key tr ch0iStr [1] 1
  let success := if a4.1 = 0 then 1 else success
  (if success ≠ 0 then 0 else -1, a1.2 ++ a2.2 ++ a3.2 ++ a4.2)

/-- The registry value `smc_set_bclm` builds (smc.c lines 272–274): the
`uint8_t` percentage widened to a signed 32-bit `CFNumber`. -/
def chargeCapVal (percentage : Nat) : CFValue :=
  CFValue.sint32 (Int.ofNat (percentage % 256))

/-- `smc_set_bclm` (smc.c lines 270–283): registry `ChargeCapacity` first;
on its success return 0, otherwise fall back to one SMC write of the raw
percentage byte to "BCLM" and forward its result. -/
def smc_set_bclm (env : RegistryEnv) (tr : Transport) (percentage : Nat) :
    Int × List Event :=
  let a := set_battery_property env "ChargeCapacity" (chargeCapVal percentage)
  if a.1 = 0 then (0, a.2)
  else
    let w := smc_write_key tr bclmStr [percentage % 256] 1
    (w.1, a.2 ++ w.2)

/-- `smc_get_bclm` (smc.c lines 285–288): read key "BCLM"; the reported
size is held in a local and dropped.  The middle component is the content
of the caller's output buffer after the call. -/
def smc_get_bclm (tr : Transport) : Int × List Nat × List Event :=
  let r := smc_read_key tr bclmStr
  match r.1 with
  | some br => (0, br.1, r.2)
  | none => (-1, [], r.2)

/-! ### The standalone diagnostic tool (src/BrewCap/Resources/smc_tool.c) -/

/-- `SMCKeyData_t` (smc_tool.c lines 42–52): the tool's request/response
structure (it has no explicit `padding` field). -/
structure SMCKeyData where
  key : Nat
  vers : SMCKeyVersion
  pLimitData : SMCPLimitData
  keyInfo : SMCKeyInfoData
  result : Nat
  status : Nat
  data8 : Nat
  data32 : Nat
  bytes : List Nat
deriving DecidableEq, Repr

/-- The all-zero `SMCKeyData_t` produced by `memset`. -/
def zeroKeyData : SMCKeyData :=
  { key := 0
    vers := zeroVers
    pLimitData := zeroPLimit
    keyInfo := zeroKeyInfo
    result := 0
    status := 0
    data8 := 0
    data32 := 0
    bytes := List.replicate 32 0 }

/-- `SMCVal_t` (smc_tool.c lines 56–61). -/
structure SMCVal where
  key : List Nat
  dataSize : Nat
  dataType : List Nat
  bytes : List Nat
deriving DecidableEq, Repr

/-- The all-zero `SMCVal_t` produced by `memset`. -/
def zeroVal : SMCVal :=
  { key := [], dataSize := 0, dataType := [], bytes := List.replicate 32 0 }

/-- The tool's kernel call primitive, as used through `SMCCall`
(smc_tool.c lines 117–123). -/
def TransportT : Type := SMCKeyData → Nat × SMCKeyData

/-- The key-info request built by `SMCReadKey` (smc_tool.c lines 134–138). -/
def infoRequestT (key : Nat) : SMCKeyData :=
  { zeroKeyData with key := key, data8 := SMC_CMD_READ_KEYINFO }

/-- The data-phase read request of `SMCReadKey` (smc_tool.c lines 147–148):
the same input structure with the declared data size and the read command
byte filled in. -/
def readRequestT (key : Nat) (dataSize : Nat) : SMCKeyData :=
  { zeroKeyData with
    key := key
    keyInfo := { zeroKeyInfo with dataSize := dataSize }
    data8 := SMC_CMD_READ_BYTES }

/-- The data-phase write request built by `SMCWriteKey` (smc_tool.c lines
174–180): key id, write command byte, the caller's declared size, and the
caller's full 32-byte buffer. -/
def writeRequestT (key : Nat) (dataSize : Nat) (bytes : List Nat) : SMCKeyData :=
  { zeroKeyData with
    key := key
    data8 := SMC_CMD_WRITE_BYTES
    keyInfo := { zeroKeyInfo with dataSize := dataSize }
    bytes := bytes }

/-- `SMCReadKey` (smc_tool.c lines 125–155): key-info query, then byte
read; the result value records the key (up to 4 characters), the declared
size, the decoded type tag, and on full success the 32 response bytes. -/
def SMCReadKey (tr : TransportT) (key : List Nat) :
    (Nat × SMCVal) × List SMCKeyData :=
  let k := strtoul16 key 4
  let ins1 := infoRequestT k
  let out1 := tr ins1
  let val0 := { zeroVal with key := key.take 4 }
  if out1.1 ≠ 0 then ((out1.1, val0), [ins1])
  else
    let val1 := { val0 with
      dataSize := out1.2.keyInfo.dataSize
      dataType := ultostr out1.2.keyInfo.dataType }
    let ins2 := readRequestT k val1.dataSize
    let out2 := tr ins2
    if out2.1 ≠ 0 then ((out2.1, val1), [ins1, ins2])
    else ((0, { val1 with bytes := out2.2.bytes }), [ins1, ins2])

/-- `SMCWriteKey` (smc_tool.c lines 157–187): read the key first to obtain
its declared size; a declared size differing from the caller's fails with
`kIOReturnError` before any write request is built; otherwise issue the
write request and forward the transport status. -/
def SMCWriteKey (tr : TransportT) (writeVal : SMCVal) : Nat × List SMCKeyData :=
  let rd := SMCReadKey tr writeVal.key
  if rd.1.1 ≠ 0 then (rd.1.1, rd.2)
  else if rd.1.2.dataSize ≠ writeVal.dataSize then (kIOReturnError, rd.2)
  else
    let ins := writeRequestT (strtoul16 writeVal.key 4) writeVal.dataSize writeVal.bytes
    let out := tr ins
    (out.1, rd.2 ++ [ins])

/-! ### Concrete stub collaborators used to evaluate the claims -/

/-- A stub SMC transport: every call succeeds; the key-info query reports
declared size `sz`, and the data phase answers with a payload of 32 bytes
of value 7. -/
def stubTr (sz : Nat) : Transport := fun ins =>
  if ins.data8 = SMC_CMD_READ_KEYINFO then
    (0, { zeroParam with keyInfo := { dataSize := sz, dataType := 0, dataAttributes := 0 } })
  else (0, { zeroParam with bytes := List.replicate 32 7 })

/-- A stub SMC transport on which every call fails with status 1. -/
def failTr : Transport := fun _ => (1, zeroParam)

/-- A stub transport for the diagnostic tool: every call succeeds and the
key-info query reports declared size `sz`. -/
def stubTrT (sz : Nat) : TransportT := fun ins =>
  if ins.data8 = SMC_CMD_READ_KEYINFO then
    (0, { zeroKeyData with keyInfo := { dataSize := sz, dataType := 0, dataAttributes := 0 } })
  else (0, { zeroKeyData with bytes := List.replicate 32 7 })

/-- A registry stub on which the battery service exists and every property
write succeeds. -/
def envOk : RegistryEnv := { batteryService := 1, setProperty := fun _ _ => 0 }

/-- A registry stub on which the battery service exists but every property
write is rejected with status 1. -/
def envBad : RegistryEnv := { batteryService := 1, setProperty := fun _ _ => 1 }

/-- The write value used as the concrete size-mismatch input for the
diagnostic tool: key "BCLM", caller size 1, a zeroed buffer. -/
def wvCex : SMCVal :=
  { key := bclmStr, dataSize := 1, dataType := [], bytes := List.replicate 32 0 }

/-- Every data-phase write command among `evs` targets key "BCLM" and
carries the single percentage byte `p` as payload. -/
def bclmWriteOk (p : Nat) (evs : List Event) : Prop :=
  ∀ ins, Event.smc ins ∈ evs → ins.data8 = SMC_CMD_WRITE_BYTES →
    ins.key = four_char_code bclmStr ∧ ins.bytes = writePayload [p % 256] 1

/-! ### Codec lemmas -/

theorem lor_byte (m c : Nat) (hc : c < 256) : (256 * m) ||| c = 256 * m + c := by
  have h2 : c < 2 ^ 8 := lt_of_lt_of_le hc (by norm_num)
  have hor := @Nat.mul_add_lt_is_or 8 c h2 m
  rw [show (256 : Nat) * m = 2 ^ 8 * m by norm_num]
  exact hor.symm

theorem fccStep_eq (acc c : Nat) (hacc : acc < 16777216) (hc : c < 256) :
    fccStep acc c = acc * 256 + c := by
  unfold fccStep UINT32_MOD
  rw [Nat.shiftLeft_eq]
  norm_num
  rw [Nat.mod_eq_of_lt (by omega), Nat.mod_eq_of_lt hc, Nat.mul_comm acc 256,
    lor_byte acc c hc]

theorem fcc_four (a b c d : Nat) (rest : List Nat)
    (ha0 : a ≠ 0) (hb0 : b ≠ 0) (hc0 : c ≠ 0) (hd0 : d ≠ 0)
    (ha : a < 256) (hb : b < 256) (hc : c < 256) (hd : d < 256) :
    four_char_code (a :: b :: c :: d :: rest) =
      ((a * 256 + b) * 256 + c) * 256 + d := by
  have e1 : fccStep 0 a = a := by rw [fccStep_eq 0 a (by norm_num) ha]; omega
  have e2 : fccStep a b = a * 256 + b := fccStep_eq a b (by omega) hb
  have e3 : fccStep (a * 256 + b) c = (a * 256 + b) * 256 + c :=
    fccStep_eq (a * 256 + b) c (by omega) hc
  have e4 : fccStep ((a * 256 + b) * 256 + c) d = ((a * 256 + b) * 256 + c) * 256 + d :=
    fccStep_eq ((a * 256 + b) * 256 + c) d (by omega) hd
  simp [four_char_code, fccLoop, ha0, hb0, hc0, hd0, e1, e2, e3, e4]

theorem strtoul16_four (a b c d : Nat) (rest : List Nat)
    (ha : a < 256) (hb : b < 256) (hc : c < 256) (hd : d < 256) :
    strtoul16 (a :: b :: c :: d :: rest) 4 =
      a * 16777216 + b * 65536 + c * 256 + d := by
  unfold strtoul16 UINT32_MOD bufByte
  rw [show List.range 4 = [0, 1, 2, 3] from rfl]
  simp only [List.foldl_cons, List.foldl_nil, List.getD_cons_zero, List.getD_cons_succ,
    Nat.shiftLeft_eq]
  norm_num
  omega

/-! ### C2: agreement of the two key encoders -/

/-- C2 (counterexample): the claim that `four_char_code` and `_strtoul`
agree on every input string, including strings shorter than 4 characters,
is false.  On the two-character string "AB" the loop of `four_char_code`
stops at the NUL terminator and yields `0x4142`, while `_strtoul` reads all
four bytes of the zero-padded key buffer and yields `0x41420000`. -/
theorem C2_counterexample :
    four_char_code [65, 66] = 16706 ∧
    strtoul16 [65, 66] 4 = 1094844416 ∧
    four_char_code [65, 66] ≠ strtoul16 [65, 66] 4 := by
  refine ⟨by decide, by decide, by decide⟩

/-- C2 (amended): on every string whose first four characters are present
and nonzero — in particular on every 4-character SMC key — the two
key-encoding variants agree: `four_char_code s = _strtoul(s, 4, 16)`, both
reading four bytes left-to-right, most-significant byte first. -/
theorem C2_encoders_agree_on_four_char_keys (s : List Nat)
    (hlen : 4 ≤ s.length)
    (hbytes : ∀ c ∈ s.take 4, 0 < c ∧ c < 256) :
    four_char_code s = strtoul16 s 4 := by
  rcases s with _ | ⟨a, _ | ⟨b, _ | ⟨c, _ | ⟨d, rest⟩⟩⟩⟩ <;> simp at hlen
  have ha := hbytes a (by simp)
  have hb := hbytes b (by simp)
  have hc := hbytes c (by simp)
  have hd := hbytes d (by simp)
  rw [fcc_four a b c d rest (by omega) (by omega) (by omega) (by omega)
      ha.2 hb.2 hc.2 hd.2,
    strtoul16_four a b c d rest ha.2 hb.2 hc.2 hd.2]
  ring

/-- C2 (witness): the amended agreement evaluated on the concrete
4-character key "BCLM". -/
theorem C2_witness :
    (4 ≤ bclmStr.length ∧ ∀ c ∈ bclmStr.take 4, 0 < c ∧ c < 256) ∧
    four_char_code bclmStr = strtoul16 bclmStr 4 :=
  ⟨⟨by decide, by decide⟩,
    C2_encoders_agree_on_four_char_keys bclmStr (by decide) (by decide)⟩

/-! ### C5: round trip of the 32-bit key encoding -/

/-- C5: for every 4-character string, decoding the encoded 32-bit value
yields the string again: `_ultostr(_strtoul(s, 4, 16)) = s`. -/
theorem C5_encode_decode_roundtrip (s : List Nat)
    (hlen : s.length = 4) (hbytes : ∀ c ∈ s, c < 256) :
    ultostr (strtoul16 s 4) = s := by
  rcases s with _ | ⟨a, _ | ⟨b, _ | ⟨c, _ | ⟨d, _ | ⟨e, rest⟩⟩⟩⟩⟩ <;> simp at hlen
  have ha := hbytes a (by simp)
  have hb := hbytes b (by simp)
  have hc := hbytes c (by simp)
  have hd := hbytes d (by simp)
  rw [strtoul16_four a b c d [] ha hb hc hd]
  unfold ultostr
  simp only [Nat.shiftRight_eq_div_pow, List.cons.injEq]
  norm_num
  refine ⟨by omega, by omega, by omega, by omega⟩

/-- C5 (witness): the round trip evaluated on the concrete key "BCLM". -/
theorem C5_witness :
    (bclmStr.length = 4 ∧ ∀ c ∈ bclmStr, c < 256) ∧
    ultostr (strtoul16 bclmStr 4) = bclmStr :=
  ⟨⟨by decide, by decide⟩,
    C5_encode_decode_roundtrip bclmStr (by decide) (by decide)⟩

/-! ### C1: the write-size check -/

theorem SMCReadKey_log_cmds (tr : TransportT) (key : List Nat) :
    ∀ e ∈ (SMCReadKey tr key).2,
      e.data8 = SMC_CMD_READ_KEYINFO ∨ e.data8 = SMC_CMD_READ_BYTES := by
  intro e he
  unfold SMCReadKey at he
  dsimp only at he
  split at he
  · simp at he
    subst he
    left
    rfl
  · split at he <;> simp at he <;>
      rcases he with he | he <;> subst he
    · left; rfl
    · right; rfl
    · left; rfl
    · right; rfl

/-- C1 (amended): the size check lives in the diagnostic tool's
`SMCWriteKey`, not in the core's `smc_write_key`.  For every key and every
caller-supplied `dataSize` that differs from the key's declared size,
`SMCWriteKey` fails with `kIOReturnError` and issues zero write-command
calls to the transport primitive (the key-read of the info phase is all
that is performed). -/
theorem C1_SMCWriteKey_size_mismatch (tr : TransportT) (writeVal : SMCVal)
    (hread : (SMCReadKey tr writeVal.key).1.1 = 0)
    (hmis : (SMCReadKey tr writeVal.key).1.2.dataSize ≠ writeVal.dataSize) :
    SMCWriteKey tr writeVal = (kIOReturnError, (SMCReadKey tr writeVal.key).2) ∧
    ∀ e ∈ (SMCWriteKey tr writeVal).2, e.data8 ≠ SMC_CMD_WRITE_BYTES := by
  have hw : SMCWriteKey tr writeVal = (kIOReturnError, (SMCReadKey tr writeVal.key).2) := by
    unfold SMCWriteKey
    simp [hread, hmis]
  refine ⟨hw, ?_⟩
  intro e he
  rw [hw] at he
  rcases SMCReadKey_log_cmds tr writeVal.key e he with h | h <;>
    simp [h, SMC_CMD_READ_KEYINFO, SMC_CMD_READ_BYTES, SMC_CMD_WRITE_BYTES]

/-- C1 (witness): the amended property evaluated on a stub transport whose
key-info phase declares size 2 while the caller supplies size 1. -/
theorem C1_witness :
    ((SMCReadKey (stubTrT 2) wvCex.key).1.1 = 0 ∧
      (SMCReadKey (stubTrT 2) wvCex.key).1.2.dataSize ≠ wvCex.dataSize) ∧
    SMCWriteKey (stubTrT 2) wvCex = (kIOReturnError, (SMCReadKey (stubTrT 2) wvCex.key).2) ∧
    ∀ e ∈ (SMCWriteKey (stubTrT 2) wvCex).2, e.data8 ≠ SMC_CMD_WRITE_BYTES :=
  ⟨⟨by decide, by decide⟩,
    C1_SMCWriteKey_size_mismatch (stubTrT 2) wvCex (by decide) (by decide)⟩

/-- C1 (counterexample): the core's `smc_write_key` performs no size
check.  On a stub transport whose key-info phase succeeds and declares
size 2, writing key "BCLM" with caller size 1 does not fail and issues one
write-command call, refuting the claim that every mismatched write fails
with zero write-command calls. -/
theorem C1_counterexample :
    ((stubTr 2) (infoRequest (four_char_code bclmStr))).1 = 0 ∧
    ((stubTr 2) (infoRequest (four_char_code bclmStr))).2.keyInfo.dataSize = 2 ∧
    (2 : Nat) ≠ 1 ∧
    (smc_write_key (stubTr 2) bclmStr [50] 1).1 = 0 ∧
    countWriteCmds (smc_write_key (stubTr 2) bclmStr [50] 1).2 = 1 ∧
    ¬ ((smc_write_key (stubTr 2) bclmStr [50] 1).1 ≠ 0 ∧
        countWriteCmds (smc_write_key (stubTr 2) bclmStr [50] 1).2 = 0) := by
  refine ⟨by decide, by decide, by decide, by decide, by decide, by decide⟩

/-! ### C3 and C4: the charging-control policy -/

theorem countWriteCmds_append (a b : List Event) :
    countWriteCmds (a ++ b) = countWriteCmds a + countWriteCmds b := by
  simp [countWriteCmds, List.filter_append]

theorem set_battery_property_no_smc (env : RegistryEnv) (key : String) (value : CFValue) :
    smcCalls (set_battery_property env key value).2 = [] ∧
    countWriteCmds (set_battery_property env key value).2 = 0 := by
  unfold set_battery_property get_battery_service
  dsimp only
  split
  · exact ⟨rfl, rfl⟩
  · split <;> exact ⟨rfl, rfl⟩

theorem smc_write_key_trace (tr : Transport) (key bytes : List Nat) (size : Nat) :
    countWriteCmds (smc_write_key tr key bytes size).2 ≤ 1 ∧
    ∀ ins, Event.smc ins ∈ (smc_write_key tr key bytes size).2 →
      ins.data8 = SMC_CMD_WRITE_BYTES →
      ins.key = four_char_code key ∧ ins.bytes = writePayload bytes size := by
  by_cases h1 : (tr (infoRequest (four_char_code key))).1 ≠ 0
  · have ht : (smc_write_key tr key bytes size).2 =
        [Event.smc (infoRequest (four_char_code key))] := by
      unfold smc_write_key smc_read_key_info
      simp [h1]
    rw [ht]
    have h0 : countWriteCmds [Event.smc (infoRequest (four_char_code key))] = 0 := rfl
    refine ⟨by omega, ?_⟩
    intro ins hin hd8
    simp at hin
    subst hin
    exact ((by decide : (9 : Nat) ≠ 6) hd8).elim
  · have ht : (smc_write_key tr key bytes size).2 =
        [Event.smc (infoRequest (four_char_code key)),
          Event.smc (writeRequest (four_char_code key)
            (tr (infoRequest (four_char_code key))).2.keyInfo bytes size)] := by
      unfold smc_write_key smc_read_key_info
      simp [h1]
      split <;> simp
    rw [ht]
    have h0 : countWriteCmds
        [Event.smc (infoRequest (four_char_code key)),
          Event.smc (writeRequest (four_char_code key)
            (tr (infoRequest (four_char_code key))).2.keyInfo bytes size)] = 1 := rfl
    refine ⟨by omega, ?_⟩
    intro ins hin hd8
    simp at hin
    rcases hin with hin | hin <;> subst hin
    · exact ((by decide : (9 : Nat) ≠ 6) hd8).elim
    · exact ⟨rfl, rfl⟩

/-- C3: `smc_disable_charging` performs its four method attempts — registry
`ChargeInhibit := true`, registry `ChargeRate := 0`, SMC `CH0B := 0x02`,
SMC `CH0I := 0x01` — unconditionally and in that order (its call trace is
the concatenation of the four attempts' traces), and returns 0 precisely
when at least one attempt returns 0. -/
theorem C3_disable_charging_any_success (env : RegistryEnv) (tr : Transport) :
    ((smc_disable_charging env tr).1 = 0 ↔
      (set_battery_property env "ChargeInhibit" (CFValue.boolean true)).1 = 0 ∨
      (set_battery_property env "ChargeRate" (CFValue.sint32 0)).1 = 0 ∨
      (smc_write_key tr ch0bStr [2] 1).1 = 0 ∨
      (smc_write_key tr ch0iStr [1] 1).1 = 0) ∧
    (smc_disable_charging env tr).2 =
      (set_battery_property env "ChargeInhibit" (CFValue.boolean true)).2 ++
      (set_battery_property env "ChargeRate" (CFValue.sint32 0)).2 ++
      (smc_write_key tr ch0bStr [2] 1).2 ++
      (smc_write_key tr ch0iStr [1] 1).2 := by
  unfold smc_disable_charging
  by_cases h1 : (set_battery_property env "ChargeInhibit" (CFValue.boolean true)).1 = 0 <;>
    by_cases h2 : (set_battery_property env "ChargeRate" (CFValue.sint32 0)).1 = 0 <;>
    by_cases h3 : (smc_write_key tr ch0bStr [2] 1).1 = 0 <;>
    by_cases h4 : (smc_write_key tr ch0iStr [1] 1).1 = 0 <;>
    simp [h1, h2, h3, h4]

/-- C4: `smc_set_bclm` tries the registry `ChargeCapacity` write first; on
its success it returns 0 having issued no SMC transport call at all, and
only on its failure does it perform exactly one SMC write attempt — at most
one write-command call, always of the single raw percentage byte to key
"BCLM" — whose result becomes the operation's result. -/
theorem C4_set_bclm_registry_first (env : RegistryEnv) (tr : Transport) (percentage : Nat) :
    ((set_battery_property env "ChargeCapacity" (chargeCapVal percentage)).1 = 0 →
      smc_set_bclm env tr percentage =
        (0, (set_battery_property env "ChargeCapacity" (chargeCapVal percentage)).2) ∧
      smcCalls (smc_set_bclm env tr percentage).2 = [] ∧
      countWriteCmds (smc_set_bclm env tr percentage).2 = 0) ∧
    ((set_battery_property env "ChargeCapacity" (chargeCapVal percentage)).1 ≠ 0 →
      (smc_set_bclm env tr percentage).1 =
        (smc_write_key tr bclmStr [percentage % 256] 1).1 ∧
      (smc_set_bclm env tr percentage).2 =
        (set_battery_property env "ChargeCapacity" (chargeCapVal percentage)).2 ++
        (smc_write_key tr bclmStr [percentage % 256] 1).2 ∧
      countWriteCmds (smc_set_bclm env tr percentage).2 ≤ 1 ∧
      bclmWriteOk percentage (smc_set_bclm env tr percentage).2) := by
  constructor
  · intro hreg
    have ht : smc_set_bclm env tr percentage =
        (0, (set_battery_property env "ChargeCapacity" (chargeCapVal percentage)).2) := by
      unfold smc_set_bclm
      simp [hreg]
    refine ⟨ht, ?_, ?_⟩
    · rw [ht]
      exact (set_battery_property_no_smc env "ChargeCapacity" (chargeCapVal percentage)).1
    · rw [ht]
      exact (set_battery_property_no_smc env "ChargeCapacity" (chargeCapVal percentage)).2
  · intro hreg
    have ht : smc_set_bclm env tr percentage =
        ((smc_write_key tr bclmStr [percentage % 256] 1).1,
          (set_battery_property env "ChargeCapacity" (chargeCapVal percentage)).2 ++
          (smc_write_key tr bclmStr [percentage % 256] 1).2) := by
      unfold smc_set_bclm
      simp [hreg]
    refine ⟨by rw [ht], by rw [ht], ?_, ?_⟩
    · rw [ht]
      simp only [countWriteCmds_append]
      have hr := (set_battery_property_no_smc env "ChargeCapacity" (chargeCapVal percentage)).2
      have hw := (smc_write_key_trace tr bclmStr [percentage % 256] 1).1
      omega
    · rw [ht]
      intro ins hin hd8
      simp only [List.mem_append] at hin
      rcases hin with hin | hin
      · exfalso
        have hs := (set_battery_property_no_smc env "ChargeCapacity" (chargeCapVal percentage)).1
        have : Event.smc ins ∈ smcCalls
            (set_battery_property env "ChargeCapacity" (chargeCapVal percentage)).2 := by
          simp [smcCalls, List.mem_filter, hin]
        rw [hs] at this
        simp at this
      · exact (smc_write_key_trace tr bclmStr [percentage % 256] 1).2 ins hin hd8

/-- C4 (witness): both branches evaluated at percentage 50 — a registry
stub that accepts the property write (no SMC call at all), and one that
rejects it (fallback to the single "BCLM" write). -/
theorem C4_witness :
    (smc_set_bclm envOk (stubTr 1) 50 =
        (0, (set_battery_property envOk "ChargeCapacity" (chargeCapVal 50)).2) ∧
      smcCalls (smc_set_bclm envOk (stubTr 1) 50).2 = [] ∧
      countWriteCmds (smc_set_bclm envOk (stubTr 1) 50).2 = 0) ∧
    ((smc_set_bclm envBad (stubTr 1) 50).1 =
        (smc_write_key (stubTr 1) bclmStr [50 % 256] 1).1 ∧
      (smc_set_bclm envBad (stubTr 1) 50).2 =
        (set_battery_property envBad "ChargeCapacity" (chargeCapVal 50)).2 ++
        (smc_write_key (stubTr 1) bclmStr [50 % 256] 1).2 ∧
      countWriteCmds (smc_set_bclm envBad (stubTr 1) 50).2 ≤ 1 ∧
      bclmWriteOk 50 (smc_set_bclm envBad (stubTr 1) 50).2) :=
  ⟨(C4_set_bclm_registry_first envOk (stubTr 1) 50).1 (by decide),
    (C4_set_bclm_registry_first envBad (stubTr 1) 50).2 (by decide)⟩

/-! ### C6 and C7: the read-side clamp and the size-0 edge case -/

theorem clampTo32_eq_min (size : Nat) : clampTo32 size = min size 32 := by
  unfold clampTo32
  split <;> omega

/-- C6: whatever declared size the key-info phase reports — including sizes
greater than 32 — a successful `smc_read_key` copies exactly
`min(declared, 32)` bytes of the 32-byte response payload into the output
buffer and reports that clamped count as the output size; the copied
prefix never exceeds 32 bytes. -/
theorem C6_read_key_clamps_to_32 (tr : Transport) (key : List Nat)
    (h1 : (tr (infoRequest (four_char_code key))).1 = 0)
    (h2 : (tr (readRequest (four_char_code key)
      (tr (infoRequest (four_char_code key))).2.keyInfo)).1 = 0)
    (h3 : (tr (readRequest (four_char_code key)
      (tr (infoRequest (four_char_code key))).2.keyInfo)).2.bytes.length = 32) :
    (smc_read_key tr key).1 =
      some ((tr (readRequest (four_char_code key)
          (tr (infoRequest (four_char_code key))).2.keyInfo)).2.bytes.take
            (min (tr (infoRequest (four_char_code key))).2.keyInfo.dataSize 32),
        min (tr (infoRequest (four_char_code key))).2.keyInfo.dataSize 32) ∧
    ∀ bs sz, (smc_read_key tr key).1 = some (bs, sz) →
      sz = min (tr (infoRequest (four_char_code key))).2.keyInfo.dataSize 32 ∧
      bs.length = sz ∧ bs.length ≤ 32 := by
  have hr : (smc_read_key tr key).1 =
      some ((tr (readRequest (four_char_code key)
          (tr (infoRequest (four_char_code key))).2.keyInfo)).2.bytes.take
            (min (tr (infoRequest (four_char_code key))).2.keyInfo.dataSize 32),
        min (tr (infoRequest (four_char_code key))).2.keyInfo.dataSize 32) := by
    unfold smc_read_key smc_read_key_info
    simp [h1, h2, clampTo32_eq_min]
  refine ⟨hr, ?_⟩
  intro bs sz hbs
  rw [hr] at hbs
  simp only [Option.some.injEq, Prod.mk.injEq] at hbs
  rcases hbs with ⟨hbs1, hbs2⟩
  subst hbs1
  subst hbs2
  refine ⟨rfl, ?_, ?_⟩
  · rw [List.length_take, h3]
    omega
  · rw [List.length_take, h3]
    omega

/-- C6 (witness): a stub key-info phase declaring size 100 yields exactly
the 32-byte clamped payload and reported size 32. -/
theorem C6_witness :
    (smc_read_key (stubTr 100) bclmStr).1 = some (List.replicate 32 7, 32) := by
  have h := C6_read_key_clamps_to_32 (stubTr 100) bclmStr (by decide) (by decide) (by decide)
  rw [h.1]
  decide

/-- C7: a key whose key-info phase declares size 0 reads back, on
successful transport calls, as a success carrying the empty byte sequence
and reported size 0 — not as an error. -/
theorem C7_read_size_zero_is_success (tr : Transport) (key : List Nat)
    (h1 : (tr (infoRequest (four_char_code key))).1 = 0)
    (h0 : (tr (infoRequest (four_char_code key))).2.keyInfo.dataSize = 0)
    (h2 : (tr (readRequest (four_char_code key)
      (tr (infoRequest (four_char_code key))).2.keyInfo)).1 = 0) :
    (smc_read_key tr key).1 = some ([], 0) := by
  unfold smc_read_key smc_read_key_info
  simp [h1, h2, h0, clampTo32]

/-- C7 (witness): the size-0 read evaluated on a concrete stub. -/
theorem C7_witness : (smc_read_key (stubTr 0) bclmStr).1 = some ([], 0) :=
  C7_read_size_zero_is_success (stubTr 0) bclmStr (by decide) (by decide) (by decide)

/-! ### C8: the mandatory fresh info phase -/

/-- C8: on every invocation of `smc_read_key` and `smc_write_key` the very
first transport call is a fresh key-info query (key info is never cached:
each invocation issues its own query before any data-phase call), and when
that query fails the operation returns an error at once, its complete call
trace being the single key-info call — no data-phase read or write is
issued. -/
theorem C8_fresh_key_info_phase (tr tr2 : Transport) (key bytes : List Nat) (size : Nat)
    (h : (tr (infoRequest (four_char_code key))).1 ≠ 0) :
    smc_read_key tr key = (none, [Event.smc (infoRequest (four_char_code key))]) ∧
    smc_write_key tr key bytes size =
      (-1, [Event.smc (infoRequest (four_char_code key))]) ∧
    (smc_read_key tr2 key).2.head? =
      some (Event.smc (infoRequest (four_char_code key))) ∧
    (smc_write_key tr2 key bytes size).2.head? =
      some (Event.smc (infoRequest (four_char_code key))) := by
  refine ⟨?_, ?_, ?_, ?_⟩
  · unfold smc_read_key smc_read_key_info
    simp [h]
  · unfold smc_write_key smc_read_key_info
    simp [h]
  · unfold smc_read_key smc_read_key_info
    by_cases h2 : (tr2 (infoRequest (four_char_code key))).1 ≠ 0
    · simp [h2]
    · simp [h2]
      split <;> simp
  · unfold smc_write_key smc_read_key_info
    by_cases h2 : (tr2 (infoRequest (four_char_code key))).1 ≠ 0
    · simp [h2]
    · simp [h2]
      split <;> simp

/-- C8 (witness): a failing and a succeeding transport on key "CH0B". -/
theorem C8_witness :
    smc_read_key failTr ch0bStr =
      (none, [Event.smc (infoRequest (four_char_code ch0bStr))]) ∧
    smc_write_key failTr ch0bStr [2] 1 =
      (-1, [Event.smc (infoRequest (four_char_code ch0bStr))]) ∧
    (smc_read_key (stubTr 1) ch0bStr).2.head? =
      some (Event.smc (infoRequest (four_char_code ch0bStr))) ∧
    (smc_write_key (stubTr 1) ch0bStr [2] 1).2.head? =
      some (Event.smc (infoRequest (four_char_code ch0bStr))) :=
  C8_fresh_key_info_phase failTr (stubTr 1) ch0bStr [2] 1 (by decide)

/-! ### C9: idempotent close -/

/-- C9: `smc_close` is total and idempotent on the process-wide handle:
closing a zero handle performs no release call and leaves the handle
unchanged, after any close the handle is zero, and a second close is a
no-op that performs no release call. -/
theorem C9_close_idempotent_total :
    smc_close 0 = (0, []) ∧
    ∀ conn : Nat, (smc_close conn).1 = 0 ∧ smc_close (smc_close conn).1 = (0, []) := by
  refine ⟨rfl, ?_⟩
  intro conn
  by_cases h : conn = 0
  · subst h
    simp [smc_close]
  · simp [smc_close, h]

/-! ### C10: the discarded read size in `smc_get_bclm` -/

/-- C10: whenever the underlying read of key "BCLM" succeeds,
`smc_get_bclm` returns success and hands the caller exactly the bytes the
read copied — the size the read reported is held in a local and never
returned, so success is independent of it; in particular a declared size
of 0 yields success with an untouched output buffer. -/
theorem C10_get_bclm_discards_size (tr : Transport) (bs : List Nat) (sz : Nat)
    (h : (smc_read_key tr bclmStr).1 = some (bs, sz)) :
    (smc_get_bclm tr).1 = 0 ∧ (smc_get_bclm tr).2.1 = bs := by
  simp [smc_get_bclm, h]

/-- C10 (witness): with a declared size of 0 the read succeeds with no
bytes copied, and `smc_get_bclm` still reports success. -/
theorem C10_witness :
    (smc_get_bclm (stubTr 0)).1 = 0 ∧ (smc_get_bclm (stubTr 0)).2.1 = [] :=
  C10_get_bclm_discards_size (stubTr 0) [] 0 (by decide)

end BrewCap
